import Mathlib

/-!
Verification of the video-compression utility (app/compressor.py, app/presets.py,
app/gui.py, app/utils.py) against its natural-language specification.

Shallow embedding conventions:
- Python floats are modelled as exact rationals (ℚ); Python ints as ℤ/ℕ.
- Python int() applied to a float truncates toward zero; this is pyInt below.
- Exceptions are modelled with Except; filesystem effects relevant to the
  claims are modelled as explicit state.
-/

/-- Python int() applied to a nonnegative-or-negative rational: truncation
toward zero (floor for nonnegative values, ceiling for negative values). -/
def pyInt (q : ℚ) : ℤ := if 0 ≤ q then ⌊q⌋ else ⌈q⌉

/-! ## Presets (app/presets.py) -/

/-- PresetConfig from app/presets.py lines 12-17: a compression preset. -/
structure PresetConfig where
  max_height : ℤ
  video_kbps_mult : ℚ
  crf : ℤ
  speed : String
deriving DecidableEq

/-- PRESETS table from app/presets.py lines 20-39 (insertion-ordered dict,
modelled as an association list preserving that order). -/
def PRESETS : List (String × PresetConfig) :=
  [("light", ⟨1080, 1, 20, "slow"⟩),
   ("medium", ⟨720, 3/4, 23, "slow"⟩),
   ("strong", ⟨480, 1/2, 28, "medium"⟩)]

/-- get_preset from app/presets.py lines 42-56: membership test on the table,
raising KeyError (modelled as Except.error carrying the message text) for an
unknown name. The table itself is a closed term, so lookup cannot mutate it. -/
def get_preset (preset_name : String) : Except String PresetConfig :=
  match PRESETS.lookup preset_name with
  | some cfg => Except.ok cfg
  | none => Except.error ("Unknown preset: " ++ preset_name)

/-- list_presets from app/presets.py lines 59-65: list(PRESETS.keys()), the
key names in insertion order. -/
def list_presets : List String := PRESETS.map Prod.fst

/-! ## Bitrate planner (app/compressor.py, compress_video lines 48-134)

compress_video probes the source, then decides between a file copy, a 2-pass
target-size encode, and a single-pass CRF-style encode. The decision logic and
bitrate arithmetic, which is what the claims are about, is embedded here as a
pure planner; the actual subprocess invocations are abstracted into the plan
constructors. -/

/-- Source metadata as returned by get_video_info (app/compressor.py lines
18-45): width, height, duration in seconds, overall bitrate in kbps
(bit_rate // 1000, defaulting to 0 when the probe reports none), size in MB. -/
structure SourceInfo where
  width : ℤ
  height : ℤ
  durationSeconds : ℚ
  bitrateKbps : ℕ
  sizeMB : ℚ
deriving DecidableEq

/-- The action compress_video decides on: copy the file unchanged, 2-pass
encode, or single-pass encode, with the chosen video/audio bitrates in kbps. -/
inductive EncodePlan where
  | copy : EncodePlan
  | twoPass (videoKbps audioKbps : ℤ) : EncodePlan
  | onePass (videoKbps audioKbps : ℤ) : EncodePlan
deriving DecidableEq

/-- Video bitrate of the target-size branch, app/compressor.py lines 93-94:
total_kbps = int(target_mb * 8192 / duration); video_kbps =
max(total_kbps - audio_kbps, 300) with audio_kbps = 96. -/
def targetVideoKbps (target_mb : ℤ) (duration : ℚ) : ℤ :=
  max (pyInt ((target_mb : ℚ) * 8192 / duration) - 96) 300

/-- Video bitrate of the CRF branch, app/compressor.py lines 114-117:
max(int(src_kbps * mult), 350) if src_kbps else 1200 (src_kbps truthiness:
the fallback fires exactly when the probed bitrate is 0). -/
def crfVideoKbps (src : SourceInfo) (cfg : PresetConfig) : ℤ :=
  if src.bitrateKbps ≠ 0 then
    max (pyInt ((src.bitrateKbps : ℚ) * cfg.video_kbps_mult)) 350
  else 1200

/-- CRF-mode tail of compress_video, app/compressor.py lines 112-134: skip to
a copy when the source bitrate is known (nonzero) and already at most the
computed video bitrate, otherwise single-pass encode at that bitrate. -/
def crfPlan (src : SourceInfo) (cfg : PresetConfig) : EncodePlan :=
  let video_kbps := crfVideoKbps src cfg
  if src.bitrateKbps ≠ 0 ∧ (src.bitrateKbps : ℤ) ≤ video_kbps then EncodePlan.copy
  else EncodePlan.onePass video_kbps 96

/-- Decision logic of compress_video, app/compressor.py lines 83-134.
Line 86 compares against target_mb - 0.2 (0.2 = 1/5 as an exact rational);
line 91 tests Python truthiness of target_mb, so a present-but-zero target
falls through to the CRF branch. Audio bitrate is the fixed 96 of line 83. -/
def compress_video (src : SourceInfo) (cfg : PresetConfig)
    (target_mb : Option ℤ) : EncodePlan :=
  match target_mb with
  | some t =>
    if src.sizeMB ≤ (t : ℚ) - 1/5 then EncodePlan.copy
    else if t ≠ 0 then EncodePlan.twoPass (targetVideoKbps t src.durationSeconds) 96
    else crfPlan src cfg
  | none => crfPlan src cfg

/-- Video bitrate recorded in a plan, when the plan encodes at all. -/
def planVideoKbps : EncodePlan → Option ℤ
  | EncodePlan.copy => none
  | EncodePlan.twoPass v _ => some v
  | EncodePlan.onePass v _ => some v

/-! ## Two-pass run and pass-statistics cleanup (app/compressor.py lines
91-110 and 137-199)

The external encoder's first pass writes the statistics files
ffmpeg2pass-0.log and ffmpeg2pass-0.log.mbtree (that is why compress_video
names exactly those files in its cleanup loop). The filesystem state tracked
here is whether those statistics files exist. Each pass is a
subprocess.run(..., check=True), which raises CalledProcessError on a nonzero
exit; the Booleans pass1Ok/pass2Ok stand for the exit status of the two
external invocations. -/

/-- Filesystem state relevant to the cleanup claims: whether the pass-1
statistics files ffmpeg2pass-0.log / ffmpeg2pass-0.log.mbtree exist. -/
structure FsState where
  statsPresent : Bool
deriving DecidableEq

/-- Embedding of _two_pass_encode, app/compressor.py lines 137-199: run pass 1
(which writes the statistics files when it completes), raising if it exits
nonzero, then run pass 2, raising if it exits nonzero. The Except value is
the CalledProcessError raised by check=True. -/
def two_pass_encode (pass1Ok pass2Ok : Bool) (fs : FsState) :
    Except Unit Unit × FsState :=
  if pass1Ok then
    let fs1 : FsState := ⟨true⟩
    if pass2Ok then (Except.ok (), fs1) else (Except.error (), fs1)
  else (Except.error (), fs)

/-- Embedding of the target-MB branch of compress_video, app/compressor.py
lines 96-110: call _two_pass_encode, and only after it returns normally run
the cleanup loop of lines 106-108 removing the statistics files. An exception
from _two_pass_encode propagates to the caller before the loop is reached. -/
def compress_target_run (pass1Ok pass2Ok : Bool) (fs : FsState) :
    Except Unit Unit × FsState :=
  match two_pass_encode pass1Ok pass2Ok fs with
  | (Except.error e, fs1) => (Except.error e, fs1)
  | (Except.ok _, _) => (Except.ok (), ⟨false⟩)

/-! ## GUI input handling (app/gui.py, CompressorApp) -/

/-- One entry of the task queue, app/gui.py line 109: the tuple
(file_path, output_file, preset, target_mb). -/
structure Job where
  input : String
  output : String
  preset : String
  target : Option ℤ
deriving DecidableEq

/-- Observable CompressorApp state the claims mention: the status label text,
the task queue contents (FIFO, newest at the tail), and the log lines. The
model assumes the UI is built, so set_status and log_msg always apply. -/
structure GuiState where
  status : String
  queue : List Job
  logs : List String
deriving DecidableEq

/-- set_status, app/gui.py lines 150-157: replace the status label text. -/
def set_status (text : String) (st : GuiState) : GuiState :=
  { st with status := text }

/-- log_msg, app/gui.py lines 159-174: append a line to the log widget. -/
def log_msg (text : String) (st : GuiState) : GuiState :=
  { st with logs := st.logs ++ [text] }

/-- Digits of a Python int literal body: all characters must be decimal
digits and there must be at least one. -/
def digitsToNat : List Char → Option ℕ
  | [] => none
  | cs =>
    if cs.all Char.isDigit then
      some (cs.foldl (fun a c => a * 10 + (c.toNat - 48)) 0)
    else none

/-- Python int(s) on an already-stripped string: an optional sign followed by
decimal digits; anything else raises ValueError (modelled as none). -/
def pyIntOfString (s : String) : Option ℤ :=
  match s.data with
  | '+' :: rest => (digitsToNat rest).map (fun n => (n : ℤ))
  | '-' :: rest => (digitsToNat rest).map (fun n => -(n : ℤ))
  | l => (digitsToNat l).map (fun n => (n : ℤ))

/-- Python str.strip() (ASCII whitespace): remove leading and trailing
whitespace characters. -/
def pyStrip (s : String) : String :=
  ⟨((s.data.dropWhile Char.isWhitespace).reverse.dropWhile Char.isWhitespace).reverse⟩

/-- get_target_mb, app/gui.py lines 134-148: strip the entry text; empty
means CRF mode (None); a non-numeric value sets the error status and also
returns None. The entry text is passed in as rawText. -/
def get_target_mb (rawText : String) (st : GuiState) : Option ℤ × GuiState :=
  let raw := pyStrip rawText
  if raw = "" then (none, st)
  else
    match pyIntOfString raw with
    | some n => (some n, st)
    | none => (none, set_status "Error: Target MB must be a number" st)

/-- os.path.splitext(p)[0] as used on the chosen file name: the text before
the final dot (the whole name when there is no dot). -/
def splitextBase (p : String) : String :=
  match (p.data.reverse.dropWhile fun c => c ≠ '.') with
  | [] => p
  | _ :: base => ⟨base.reverse⟩

/-- The f-string target_mb or CRF-mode text of app/gui.py line 107: Python
renders target_mb unless it is falsy (None or 0). -/
def targetDisplay : Option ℤ → String
  | some n => if n = 0 then "CRF mode" else toString n
  | none => "CRF mode"

/-- choose_file, app/gui.py lines 89-109. file_path is the picker result
(empty when the user cancelled); rawTarget is the target-size entry text;
uniquify stands for output_filename of app/utils.py, whose result depends on
which files exist on disk and which no claim depends on. On a cancelled pick
the error branch runs; otherwise the job tuple is unconditionally enqueued
with whatever get_target_mb returned. -/
def choose_file (file_path rawTarget preset : String)
    (uniquify : String → String) (st : GuiState) : GuiState :=
  if file_path = "" then
    log_msg "❌ No file selected" (set_status "Error: No file selected" st)
  else
    let output_file := uniquify (splitextBase file_path ++ preset ++ "_compressed.mp4")
    let res := get_target_mb rawTarget st
    let st1 := log_msg ("🎯 Target size: " ++ targetDisplay res.1 ++ " MB") res.2
    { st1 with queue := st1.queue ++ [⟨file_path, output_file, preset, res.1⟩] }

/-! ## Job queue and worker pool (app/gui.py lines 37-71)

start_workers spawns 2 worker threads; each loops forever doing
task_queue.get() (an atomic blocking dequeue from the shared FIFO queue) and
then processes the dequeued job to completion, with every exception caught at
the worker boundary (lines 56-58) so a job always ends in a logged success or
a logged failure. This is modelled as an interleaving step relation on a pool
state with the FIFO queue, the in-flight job of each of the two workers, and
the finished jobs tagged with the worker that ran them and the outcome. -/

/-- Terminal outcome of a processed job: the success branch of the worker try
block, or the except branch that converts any exception into a failure. -/
inductive Outcome where
  | succeeded : Outcome
  | failed : Outcome
deriving DecidableEq

/-- Pool state: pending FIFO queue (head is dequeued first), the job each of
the two workers is running (none when idle/blocked on get), and the finished
jobs, each recorded with the worker that processed it (false = worker 0,
true = worker 1) and its outcome. -/
structure PoolState where
  pending : List ℕ
  run0 : Option ℕ
  run1 : Option ℕ
  done : List (ℕ × Bool × Outcome)
deriving DecidableEq

/-- Interleaving semantics of the two worker loops: an idle worker atomically
dequeues the head of the queue (task_queue.get), and a busy worker finishes
its job with some terminal outcome (the try/except of app/gui.py lines 45-58
guarantees success or failure, never an escape). -/
inductive PoolStep : PoolState → PoolState → Prop where
  | deq0 (j : ℕ) (rest : List ℕ) (r1 : Option ℕ) (d : List (ℕ × Bool × Outcome)) :
      PoolStep ⟨j :: rest, none, r1, d⟩ ⟨rest, some j, r1, d⟩
  | deq1 (j : ℕ) (rest : List ℕ) (r0 : Option ℕ) (d : List (ℕ × Bool × Outcome)) :
      PoolStep ⟨j :: rest, r0, none, d⟩ ⟨rest, r0, some j, d⟩
  | fin0 (p : List ℕ) (j : ℕ) (r1 : Option ℕ) (d : List (ℕ × Bool × Outcome)) (o : Outcome) :
      PoolStep ⟨p, some j, r1, d⟩ ⟨p, none, r1, (j, false, o) :: d⟩
  | fin1 (p : List ℕ) (r0 : Option ℕ) (j : ℕ) (d : List (ℕ × Bool × Outcome)) (o : Outcome) :
      PoolStep ⟨p, r0, some j, d⟩ ⟨p, r0, none, (j, true, o) :: d⟩

/-- Initial pool state after submitting the given jobs: all queued, both
workers idle, nothing finished. -/
def initState (jobs : List ℕ) : PoolState := ⟨jobs, none, none, []⟩

/-- The workers have drained the queue: nothing pending and both workers
idle (blocked in task_queue.get). -/
def drained (s : PoolState) : Prop :=
  s.pending = [] ∧ s.run0 = none ∧ s.run1 = none

/-- Occurrences of job j in a worker slot. -/
def ocount (o : Option ℕ) (j : ℕ) : ℕ :=
  match o with
  | none => 0
  | some k => if k = j then 1 else 0

/-- Occurrences of job j in a list of job ids. -/
def lcount (j : ℕ) : List ℕ → ℕ
  | [] => 0
  | k :: l => (if k = j then 1 else 0) + lcount j l

/-- Occurrences of job j among the finished records. -/
def dcount (j : ℕ) : List (ℕ × Bool × Outcome) → ℕ
  | [] => 0
  | e :: l => (if e.1 = j then 1 else 0) + dcount j l

/-- Total occurrences of job j across the pool state: pending, in-flight on
either worker, and finished. -/
def cnt (s : PoolState) (j : ℕ) : ℕ :=
  lcount j s.pending + ocount s.run0 j + ocount s.run1 j + dcount j s.done

/-! ## Helper lemmas -/

/-- Truncation toward zero agrees with floor on nonnegative rationals. -/
theorem pyInt_eq_floor (q : ℚ) (h : 0 ≤ q) : pyInt q = ⌊q⌋ := by
  rw [pyInt, if_pos h]

/-- Clamping at 300 erases the difference between truncation toward zero and
the floor: on nonnegative values they agree, and on negative values both
branches of the max are clamped to 300. -/
theorem pyInt_max_floor (q : ℚ) : max (pyInt q - 96) 300 = max (⌊q⌋ - 96) 300 := by
  by_cases h : 0 ≤ q
  · rw [pyInt_eq_floor q h]
  · push_neg at h
    have hc : ⌈q⌉ ≤ 0 := Int.ceil_le.mpr (by push_cast; exact h.le)
    have hf : ⌊q⌋ ≤ ⌈q⌉ := Int.floor_le_ceil q
    rw [pyInt, if_neg (not_le.mpr h)]
    omega

/-- The CRF-branch video bitrate is never below 350. -/
theorem crfVideoKbps_ge (src : SourceInfo) (cfg : PresetConfig) :
    350 ≤ crfVideoKbps src cfg := by
  rw [crfVideoKbps]
  split
  · exact le_max_right _ _
  · norm_num

/-- A job absent from a list is counted zero times. -/
theorem lcount_eq_zero_of_not_mem {j : ℕ} {l : List ℕ} (h : j ∉ l) : lcount j l = 0 := by
  induction l with
  | nil => rfl
  | cons k l ih =>
    rw [lcount, if_neg (fun hk => h (by rw [← hk]; exact List.mem_cons_self k l)),
      ih (fun hj => h (List.mem_cons_of_mem k hj))]

/-- In a duplicate-free list every member is counted exactly once. -/
theorem lcount_nodup_mem {jobs : List ℕ} (hnd : jobs.Nodup) {j : ℕ} (hj : j ∈ jobs) :
    lcount j jobs = 1 := by
  induction jobs with
  | nil => cases hj
  | cons k l ih =>
    obtain ⟨hkl, hl⟩ := List.nodup_cons.mp hnd
    rcases List.mem_cons.mp hj with h | h
    · subst h
      rw [lcount, if_pos rfl, lcount_eq_zero_of_not_mem hkl]
    · have hkj : k ≠ j := fun hk => hkl (hk ▸ h)
      rw [lcount, if_neg hkj, ih hl h]

/-- A record in the finished list is counted at least once. -/
theorem dcount_pos_of_mem {e : ℕ × Bool × Outcome} {d : List (ℕ × Bool × Outcome)}
    (h : e ∈ d) : 1 ≤ dcount e.1 d := by
  induction d with
  | nil => cases h
  | cons f l ih =>
    rcases List.mem_cons.mp h with hf | hf
    · subst hf; rw [dcount, if_pos rfl]; omega
    · rw [dcount]
      have := ih hf
      omega

/-- One pool step preserves the total occurrence count of every job. -/
theorem pool_cnt_step {s s1 : PoolState} (h : PoolStep s s1) (j : ℕ) :
    cnt s1 j = cnt s j := by
  cases h with
  | deq0 k rest r1 d =>
    by_cases hk : k = j <;> simp [cnt, ocount, lcount, dcount, hk] <;> omega
  | deq1 k rest r0 d =>
    by_cases hk : k = j <;> simp [cnt, ocount, lcount, dcount, hk] <;> omega
  | fin0 p k r1 d o =>
    by_cases hk : k = j <;> simp [cnt, ocount, lcount, dcount, hk] <;> omega
  | fin1 p r0 k d o =>
    by_cases hk : k = j <;> simp [cnt, ocount, lcount, dcount, hk] <;> omega

/-- Any number of pool steps preserves the total occurrence count. -/
theorem pool_cnt_steps {s s1 : PoolState} (h : Relation.ReflTransGen PoolStep s s1)
    (j : ℕ) : cnt s1 j = cnt s j := by
  induction h with
  | refl => rfl
  | tail _ hstep ih => rw [pool_cnt_step hstep j, ih]

/-- From any state with both workers idle, worker 0 alone can drain the
pending queue. -/
theorem pool_drain_exists (p : List ℕ) (d : List (ℕ × Bool × Outcome)) :
    ∃ d1, Relation.ReflTransGen PoolStep ⟨p, none, none, d⟩ ⟨[], none, none, d1⟩ := by
  induction p generalizing d with
  | nil => exact ⟨d, Relation.ReflTransGen.refl⟩
  | cons j rest ih =>
    obtain ⟨d1, hd1⟩ := ih ((j, false, Outcome.succeeded) :: d)
    exact ⟨d1, Relation.ReflTransGen.head (PoolStep.deq0 j rest none d)
      (Relation.ReflTransGen.head (PoolStep.fin0 rest j none d Outcome.succeeded) hd1)⟩

/-! ## Claims -/

/-- C1 counterexample: with pass 1 completing (writing the statistics files)
and pass 2 exiting nonzero, the 2-pass attempt fails and the pass-statistics
files remain on disk — the cleanup of app/compressor.py lines 106-108 is not
reached on the error path, contradicting the claim that cleanup happens
regardless of success. -/
theorem c1_cleanup_counterexample :
    (compress_target_run true false ⟨false⟩).1 = Except.error () ∧
    (compress_target_run true false ⟨false⟩).2.statsPresent = true :=
  ⟨rfl, rfl⟩

/-- C1 (amended): after a 2-pass attempt the statistics files are deleted
when the encode succeeded; when pass 1 succeeded and pass 2 failed, the
CalledProcessError propagates before the cleanup loop and the statistics
files written by pass 1 remain. -/
theorem c1_cleanup_only_on_success (p1 p2 : Bool) (fs : FsState) :
    ((compress_target_run p1 p2 fs).1 = Except.ok () →
      (compress_target_run p1 p2 fs).2.statsPresent = false) ∧
    (p1 = true → p2 = false → (compress_target_run p1 p2 fs).2.statsPresent = true) := by
  cases p1 <;> cases p2 <;> simp [compress_target_run, two_pass_encode]

/-- C1 witness: a successful run leaves no statistics files, a run whose
second pass fails leaves them. -/
theorem c1_cleanup_witness :
    (compress_target_run true true ⟨true⟩).2.statsPresent = false ∧
    (compress_target_run true false ⟨false⟩).2.statsPresent = true :=
  ⟨(c1_cleanup_only_on_success true true ⟨true⟩).1 rfl,
   (c1_cleanup_only_on_success true false ⟨false⟩).2 rfl rfl⟩

/-- C2 counterexample: with a non-empty non-numeric target text, choose_file
surfaces the error to the status display but still enqueues the job (with
target None, i.e. CRF mode) — the claim that the job is not enqueued fails. -/
theorem c2_invalid_target_counterexample :
    (choose_file "video.mp4" "abc" "medium" id ⟨"Ready", [], []⟩).status =
      "Error: Target MB must be a number" ∧
    (choose_file "video.mp4" "abc" "medium" id ⟨"Ready", [], []⟩).queue =
      [⟨"video.mp4", "videomedium_compressed.mp4", "medium", none⟩] :=
  ⟨rfl, rfl⟩

/-- C2 (amended): when the target-size text is non-empty and non-numeric,
the error is surfaced to the status display, and the compression job is
nevertheless enqueued with no target size (CRF mode), because get_target_mb
returns None after setting the status and choose_file enqueues
unconditionally. -/
theorem c2_invalid_target_enqueued (file raw preset : String)
    (uniq : String → String) (st : GuiState) (hf : file ≠ "")
    (hr : pyStrip raw ≠ "") (hp : pyIntOfString (pyStrip raw) = none) :
    (choose_file file raw preset uniq st).status = "Error: Target MB must be a number" ∧
    (choose_file file raw preset uniq st).queue =
      st.queue ++ [⟨file, uniq (splitextBase file ++ preset ++ "_compressed.mp4"),
        preset, none⟩] := by
  have hg : get_target_mb raw st =
      (none, set_status "Error: Target MB must be a number" st) := by
    rw [get_target_mb]
    simp only [if_neg hr, hp]
  rw [choose_file, if_neg hf]
  simp [hg, log_msg, set_status, targetDisplay]

/-- C2 witness: a concrete invalid target text, starting from a state with a
job already queued. -/
theorem c2_invalid_target_witness :
    (choose_file "clip.mkv" " 12x " "medium" id
      ⟨"Idle", [⟨"a.mp4", "b.mp4", "light", some 5⟩], []⟩).status =
      "Error: Target MB must be a number" ∧
    (choose_file "clip.mkv" " 12x " "medium" id
      ⟨"Idle", [⟨"a.mp4", "b.mp4", "light", some 5⟩], []⟩).queue =
      [⟨"a.mp4", "b.mp4", "light", some 5⟩,
       ⟨"clip.mkv", "clipmedium_compressed.mp4", "medium", none⟩] := by
  have h := c2_invalid_target_enqueued "clip.mkv" " 12x " "medium" id
    ⟨"Idle", [⟨"a.mp4", "b.mp4", "light", some 5⟩], []⟩
    (by decide) (by decide) (by decide)
  exact ⟨h.1, h.2.trans rfl⟩

/-- C8: preset lookup succeeds for every name in the fixed set
{light, medium, strong}, fails with the unknown-preset error for every other
name, and listing preset names returns the known names in order. The table
is a closed immutable term, so lookup cannot mutate it. -/
theorem c8_preset_lookup (name : String) :
    (name ∈ list_presets → ∃ cfg, get_preset name = Except.ok cfg) ∧
    (name ∉ list_presets → get_preset name = Except.error ("Unknown preset: " ++ name)) ∧
    list_presets = ["light", "medium", "strong"] := by
  refine ⟨?_, ?_, rfl⟩
  · intro h
    simp only [list_presets, PRESETS, List.map, List.mem_cons, List.not_mem_nil,
      or_false] at h
    rcases h with h | h | h <;> subst h <;> exact ⟨_, rfl⟩
  · intro h
    simp only [list_presets, PRESETS, List.map, List.mem_cons, List.not_mem_nil,
      or_false, not_or] at h
    obtain ⟨h1, h2, h3⟩ := h
    have e1 : (name == "light") = false := beq_eq_false_iff_ne.mpr h1
    have e2 : (name == "medium") = false := beq_eq_false_iff_ne.mpr h2
    have e3 : (name == "strong") = false := beq_eq_false_iff_ne.mpr h3
    rw [get_preset]
    simp [PRESETS, List.lookup, e1, e2, e3]

/-- C8 witness: lookup succeeds on a known name with the table entry, and
fails on an unknown name with the expected message. -/
theorem c8_preset_lookup_witness :
    get_preset "strong" = Except.ok ⟨480, 1/2, 28, "medium"⟩ ∧
    get_preset "nosuch" = Except.error "Unknown preset: nosuch" := by
  refine ⟨rfl, ?_⟩
  exact (c8_preset_lookup "nosuch").2.1 (by decide)

/-- C3 counterexample: targetSizeMB = 0 is present and the copy short-circuit
does not apply (sizeMB = 1 > 0 - 0.2), yet line 91's truthiness test sends
the job to the CRF branch, producing a single-pass plan instead of the 2-pass
plan the claim requires (whose videoKbps would be max(floor(0*8192/100)-96,300)
= 300). -/
theorem c3_two_pass_counterexample :
    ¬((1 : ℚ) ≤ ((0 : ℤ) : ℚ) - 1/5) ∧ (0 : ℚ) < 100 ∧
    compress_video ⟨1920, 1080, 100, 0, 1⟩ ⟨1080, 1, 20, "slow"⟩ (some 0) =
      EncodePlan.onePass 1200 96 ∧
    EncodePlan.onePass 1200 96 ≠ EncodePlan.twoPass 300 96 := by
  refine ⟨by norm_num, by norm_num, ?_, by decide⟩
  rw [compress_video, if_neg (by norm_num), if_neg (by decide)]
  rfl

/-- C3 (amended): for every input where targetSizeMB is present and nonzero
and the copy short-circuit does not apply, the planner produces a 2-pass plan
with videoKbps = max(floor(targetSizeMB * 8192 / durationSeconds) - 96, 300);
the clamp at 300 makes Python's truncation toward zero agree with the floor. -/
theorem c3_two_pass_formula (src : SourceInfo) (cfg : PresetConfig) (t : ℤ)
    (hd : 0 < src.durationSeconds) (ht : t ≠ 0)
    (hsz : ¬ src.sizeMB ≤ (t : ℚ) - 1/5) :
    compress_video src cfg (some t) =
      EncodePlan.twoPass (max (⌊(t : ℚ) * 8192 / src.durationSeconds⌋ - 96) 300) 96 := by
  rw [compress_video, if_neg hsz, if_pos ht, targetVideoKbps, pyInt_max_floor]

/-- C3 witness: durationSeconds = 100 and targetSizeMB = 10 yield
videoKbps = max(floor(10*8192/100) - 96, 300) = max(819 - 96, 300) = 723. -/
theorem c3_two_pass_witness :
    compress_video ⟨1920, 1080, 100, 0, 100⟩ ⟨720, 3/4, 23, "slow"⟩ (some 10) =
      EncodePlan.twoPass 723 96 := by
  have h := c3_two_pass_formula ⟨1920, 1080, 100, 0, 100⟩ ⟨720, 3/4, 23, "slow"⟩ 10
    (by norm_num) (by decide) (by norm_num)
  rw [h]
  norm_num

/-- C4: whenever the plan actually encodes (no copy short-circuit), the video
bitrate is at least 300 when a target size is present and at least 350 when
it is absent (a present-but-zero target takes the CRF branch, whose 350 and
1200 floors are both above 300). -/
theorem c4_bitrate_floor (src : SourceInfo) (cfg : PresetConfig)
    (target_mb : Option ℤ) (v : ℤ)
    (h : planVideoKbps (compress_video src cfg target_mb) = some v) :
    (target_mb ≠ none → 300 ≤ v) ∧ (target_mb = none → 350 ≤ v) := by
  have hcrf : planVideoKbps (crfPlan src cfg) = some v → 350 ≤ v := by
    intro hc
    rw [crfPlan] at hc
    split at hc
    · exact absurd hc (by rw [planVideoKbps]; exact fun hx => Option.noConfusion hx)
    · rw [planVideoKbps] at hc
      injection hc with hv
      exact hv ▸ crfVideoKbps_ge src cfg
  match target_mb with
  | none =>
    rw [compress_video] at h
    exact ⟨fun hne => absurd rfl hne, fun _ => hcrf h⟩
  | some t =>
    refine ⟨fun _ => ?_, fun he => Option.noConfusion he⟩
    rw [compress_video] at h
    split at h
    · exact absurd h (by rw [planVideoKbps]; exact fun hx => Option.noConfusion hx)
    · split at h
      · rw [planVideoKbps] at h
        injection h with hv
        subst hv
        exact le_max_right _ _
      · exact le_trans (by norm_num) (hcrf h)

/-- C4 witness: quality mode with unknown (zero) source bitrate encodes at
the 1200 fallback, which satisfies the 350 floor. -/
theorem c4_bitrate_floor_witness :
    planVideoKbps (compress_video ⟨1920, 1080, 100, 0, 1⟩ ⟨720, 3/4, 23, "slow"⟩ none) =
      some 1200 ∧ (350 : ℤ) ≤ 1200 :=
  ⟨rfl, (c4_bitrate_floor ⟨1920, 1080, 100, 0, 1⟩ ⟨720, 3/4, 23, "slow"⟩ none 1200 rfl).2 rfl⟩

/-- C5 counterexample: with targetSizeMB = 0 (present, so the claim's
target-size mode applies) and a 500 kbps source under the light preset, the
planner yields a copy through the quality-mode skip of lines 120-122 even
though sizeMB = 1 ≤ 0 - 0.2 is false, refuting the only-if direction of the
claimed equivalence. -/
theorem c5_copy_iff_counterexample :
    compress_video ⟨1920, 1080, 100, 500, 1⟩ ⟨1080, 1, 20, "slow"⟩ (some 0) =
      EncodePlan.copy ∧
    ¬((1 : ℚ) ≤ ((0 : ℤ) : ℚ) - 1/5) := by
  constructor
  · rw [compress_video, if_neg (by norm_num), if_neg (by decide), crfPlan, if_pos]
    refine ⟨by decide, ?_⟩
    rw [crfVideoKbps, if_pos (by decide), pyInt]
    norm_num
  · norm_num

/-- C5 (amended): in target-size mode with a nonzero target, the planner
short-circuits to a copy exactly when sizeMB ≤ targetSizeMB - 0.2, and
otherwise produces the 2-pass re-encode; sizeMB = 9.7 with target 10 copies
while sizeMB = 9.9 re-encodes. -/
theorem c5_copy_iff (src : SourceInfo) (cfg : PresetConfig) (t : ℤ) (ht : t ≠ 0) :
    (compress_video src cfg (some t) = EncodePlan.copy ↔ src.sizeMB ≤ (t : ℚ) - 1/5) ∧
    (¬ src.sizeMB ≤ (t : ℚ) - 1/5 →
      compress_video src cfg (some t) =
        EncodePlan.twoPass (targetVideoKbps t src.durationSeconds) 96) := by
  constructor
  · constructor
    · intro h
      by_contra hn
      rw [compress_video, if_neg hn, if_pos ht] at h
      exact EncodePlan.noConfusion h
    · intro h
      rw [compress_video, if_pos h]
  · intro h
    rw [compress_video, if_neg h, if_pos ht]

/-- C5 witness: sizeMB = 9.7 with target 10 yields a copy (9.7 ≤ 9.8), and
sizeMB = 9.9 with target 10 does not (9.9 > 9.8). -/
theorem c5_copy_iff_witness :
    compress_video ⟨1920, 1080, 100, 0, 97/10⟩ ⟨720, 3/4, 23, "slow"⟩ (some 10) =
      EncodePlan.copy ∧
    compress_video ⟨1920, 1080, 100, 0, 99/10⟩ ⟨720, 3/4, 23, "slow"⟩ (some 10) ≠
      EncodePlan.copy := by
  constructor
  · exact (c5_copy_iff ⟨1920, 1080, 100, 0, 97/10⟩ ⟨720, 3/4, 23, "slow"⟩ 10
      (by decide)).1.mpr (by norm_num)
  · intro h
    have := (c5_copy_iff ⟨1920, 1080, 100, 0, 99/10⟩ ⟨720, 3/4, 23, "slow"⟩ 10
      (by decide)).1.mp h
    norm_num at this

/-- C6: in quality mode with a known nonzero source bitrate, the planner
copies exactly when the source bitrate is at most the computed video bitrate,
and otherwise performs the single-pass encode at that bitrate. -/
theorem c6_quality_skip (src : SourceInfo) (cfg : PresetConfig)
    (hb : src.bitrateKbps ≠ 0) :
    (compress_video src cfg none = EncodePlan.copy ↔
      (src.bitrateKbps : ℤ) ≤ crfVideoKbps src cfg) ∧
    (¬ (src.bitrateKbps : ℤ) ≤ crfVideoKbps src cfg →
      compress_video src cfg none = EncodePlan.onePass (crfVideoKbps src cfg) 96) := by
  constructor
  · constructor
    · intro h
      by_contra hn
      rw [compress_video, crfPlan, if_neg (fun hc => hn hc.2)] at h
      exact EncodePlan.noConfusion h
    · intro h
      rw [compress_video, crfPlan, if_pos ⟨hb, h⟩]
  · intro h
    rw [compress_video, crfPlan, if_neg (fun hc => h hc.2)]

/-- C6 witness: a 500 kbps source under the light preset (multiplier 1.0)
has computed videoKbps = max(500, 350) = 500 and 500 ≤ 500, so the planner
copies. -/
theorem c6_quality_skip_witness :
    compress_video ⟨1920, 1080, 100, 500, 1⟩ ⟨1080, 1, 20, "slow"⟩ none =
      EncodePlan.copy := by
  refine (c6_quality_skip ⟨1920, 1080, 100, 500, 1⟩ ⟨1080, 1, 20, "slow"⟩
    (by decide)).1.mpr ?_
  rw [crfVideoKbps, if_pos (by decide), pyInt]
  norm_num

/-- C7: in quality mode the computed video bitrate is
max(floor(bitrateKbps * multiplier), 350) for a known nonzero source bitrate
(truncation agrees with floor since the product is nonnegative), and the
fixed fallback 1200 when the source bitrate is zero, for every nonnegative
preset multiplier. -/
theorem c7_quality_kbps (src : SourceInfo) (cfg : PresetConfig)
    (hm : 0 ≤ cfg.video_kbps_mult) :
    (src.bitrateKbps ≠ 0 →
      crfVideoKbps src cfg = max ⌊(src.bitrateKbps : ℚ) * cfg.video_kbps_mult⌋ 350) ∧
    (src.bitrateKbps = 0 → crfVideoKbps src cfg = 1200) := by
  constructor
  · intro hb
    rw [crfVideoKbps, if_pos hb,
      pyInt_eq_floor _ (mul_nonneg (Nat.cast_nonneg _) hm)]
  · intro hb
    rw [crfVideoKbps, if_neg (by simp [hb])]

/-- C7 witness: a 1000 kbps source under the medium preset (multiplier 0.75)
computes max(floor(750), 350) = 750, and a zero-bitrate source computes the
1200 fallback under the same preset. -/
theorem c7_quality_kbps_witness :
    crfVideoKbps ⟨1920, 1080, 100, 1000, 50⟩ ⟨720, 3/4, 23, "slow"⟩ = 750 ∧
    crfVideoKbps ⟨1920, 1080, 100, 0, 50⟩ ⟨720, 3/4, 23, "slow"⟩ = 1200 := by
  constructor
  · have h := (c7_quality_kbps ⟨1920, 1080, 100, 1000, 50⟩ ⟨720, 3/4, 23, "slow"⟩
      (by norm_num)).1 (by decide)
    rw [h]
    norm_num
  · exact (c7_quality_kbps ⟨1920, 1080, 100, 0, 50⟩ ⟨720, 3/4, 23, "slow"⟩
      (by norm_num)).2 rfl

/-- C10: under the light preset (multiplier 1.0), quality mode always copies
when the source bitrate is known and nonzero: the computed bitrate is
max(floor(b * 1.0), 350) = max(b, 350) ≥ b, so the skip of lines 120-122
always fires and no encode is performed. -/
theorem c10_light_always_copy (src : SourceInfo) (cfg : PresetConfig)
    (hcfg : get_preset "light" = Except.ok cfg) (hb : src.bitrateKbps ≠ 0) :
    compress_video src cfg none = EncodePlan.copy := by
  have hc : cfg = ⟨1080, 1, 20, "slow"⟩ := by
    have : get_preset "light" = Except.ok ⟨1080, 1, 20, "slow"⟩ := rfl
    rw [this] at hcfg
    injection hcfg with h
    exact h.symm
  subst hc
  have hv : crfVideoKbps src ⟨1080, 1, 20, "slow"⟩ = max (src.bitrateKbps : ℤ) 350 := by
    rw [crfVideoKbps, if_pos hb]
    simp [pyInt, Int.floor_natCast]
  rw [compress_video, crfPlan, if_pos ⟨hb, hv ▸ le_max_left _ _⟩]

/-- C10 witness: a 500 kbps source under the light preset configuration is
copied, not re-encoded. -/
theorem c10_light_always_copy_witness :
    compress_video ⟨1920, 1080, 100, 500, 1⟩ ⟨1080, 1, 20, "slow"⟩ none =
      EncodePlan.copy :=
  c10_light_always_copy ⟨1920, 1080, 100, 500, 1⟩ ⟨1080, 1, 20, "slow"⟩ rfl (by decide)

/-- C9: every drained run of the 2-worker pool processes every submitted job
to a terminal outcome. For any interleaving of the two worker loops starting
from N submitted (distinct) jobs: a drained state is reachable, and in every
reachable drained state (queue empty, both workers idle — so no job is left
Queued or Running) each submitted job appears exactly once among the finished
records (hence was processed by exactly one worker) with a terminal outcome
(Succeeded or Failed), and nothing but submitted jobs was processed. -/
theorem c9_pool_drain (jobs : List ℕ) (hnd : jobs.Nodup) :
    (∃ s, Relation.ReflTransGen PoolStep (initState jobs) s ∧ drained s) ∧
    (∀ s, Relation.ReflTransGen PoolStep (initState jobs) s → drained s →
      (∀ j, j ∈ jobs → dcount j s.done = 1) ∧
      (∀ e, e ∈ s.done → e.1 ∈ jobs) ∧
      (∀ e, e ∈ s.done →
        e.2.2 = Outcome.succeeded ∨ e.2.2 = Outcome.failed)) := by
  constructor
  · obtain ⟨d1, h⟩ := pool_drain_exists jobs []
    exact ⟨⟨[], none, none, d1⟩, h, rfl, rfl, rfl⟩
  · intro s hsteps hdr
    obtain ⟨hp, h0, h1⟩ := hdr
    have hs : ∀ j, dcount j s.done = lcount j jobs := by
      intro j
      have hc : cnt s j = cnt (initState jobs) j := pool_cnt_steps hsteps j
      rw [cnt, cnt, hp, h0, h1] at hc
      simpa [initState, lcount, ocount, dcount] using hc
    refine ⟨?_, ?_, ?_⟩
    · intro j hj
      exact (hs j).trans (lcount_nodup_mem hnd hj)
    · intro e he
      by_contra hne
      have hz : dcount e.1 s.done = 0 :=
        (hs e.1).trans (lcount_eq_zero_of_not_mem hne)
      have hpos : 1 ≤ dcount e.1 s.done := dcount_pos_of_mem he
      omega
    · intro e _
      rcases e with ⟨j, w, o⟩
      cases o
      · exact Or.inl rfl
      · exact Or.inr rfl

/-- C9 witness: two jobs processed by worker 0 across an explicit
interleaving (dequeue, finish with success, dequeue, finish with failure)
each appear exactly once among the finished records. -/
theorem c9_pool_drain_witness :
    dcount 0 [(1, false, Outcome.failed), (0, false, Outcome.succeeded)] = 1 ∧
    dcount 1 [(1, false, Outcome.failed), (0, false, Outcome.succeeded)] = 1 := by
  have htrace : Relation.ReflTransGen PoolStep (initState [0, 1])
      ⟨[], none, none, [(1, false, Outcome.failed), (0, false, Outcome.succeeded)]⟩ :=
    Relation.ReflTransGen.head (PoolStep.deq0 0 [1] none [])
      (Relation.ReflTransGen.head (PoolStep.fin0 [1] 0 none [] Outcome.succeeded)
        (Relation.ReflTransGen.head (PoolStep.deq0 1 [] none
            [(0, false, Outcome.succeeded)])
          (Relation.ReflTransGen.head (PoolStep.fin0 [] 1 none
              [(0, false, Outcome.succeeded)] Outcome.failed)
            Relation.ReflTransGen.refl)))
  have h := (c9_pool_drain [0, 1] (by decide)).2
    ⟨[], none, none, [(1, false, Outcome.failed), (0, false, Outcome.succeeded)]⟩
    htrace ⟨rfl, rfl, rfl⟩
  exact ⟨h.1 0 (by decide), h.1 1 (by decide)⟩
